import Mathlib

/-!
Verification of the suoj judge core (src/judge_core_cgroup.cpp) against its
natural-language specification.  The C++ source is shallowly embedded: pure
computations become Lean functions, and the effectful supervisor loop of
runProgram becomes a function over an explicit environment record that carries
the outcome of every system call the supervisor makes.  Machine integers are
modeled as Int, with explicit two's-complement reduction at the points where
the C++ code performs a narrowing conversion.
-/

/-- Two's-complement narrowing of an integer to a 32-bit signed int, modeling
the C++ conversion from a wider integer type to `int` (modular, as defined
since C++20 and as implemented by the target toolchain). -/
def toInt32 (i : Int) : Int :=
  if i % 4294967296 < 2147483648 then i % 4294967296 else i % 4294967296 - 4294967296

/-- Two's-complement reduction of an integer to a 64-bit signed long long. -/
def wrap64 (i : Int) : Int :=
  if i % 18446744073709551616 < 9223372036854775808 then i % 18446744073709551616
  else i % 18446744073709551616 - 18446744073709551616

/-- Fuel-driven helper for the decimal digit rendering; the fuel always
suffices because a number has fewer digits than its value plus one. -/
def natDigitsAux : Nat → Nat → List Char
  | 0, _ => []
  | fuel + 1, n =>
    if n < 10 then [Char.ofNat (48 + n)]
    else natDigitsAux fuel (n / 10) ++ [Char.ofNat (48 + n % 10)]

/-- Decimal digit list of a natural number, most significant digit first.
This models the decimal rendering performed by the C++ stream insertion
operator and by std::to_string. -/
def natDigits (n : Nat) : List Char := natDigitsAux (n + 1) n

/-- Decimal string of a natural number, as printed by std::to_string. -/
def natRepr (n : Nat) : String := String.mk (natDigits n)

/-- Decimal character list of an integer, as printed by the C++ stream
insertion operator (minus sign followed by digits when negative). -/
def intReprL (i : Int) : List Char :=
  if i < 0 then '-' :: natDigits i.natAbs else natDigits i.toNat

/-- Accumulating decimal reader: consumes a maximal run of decimal digit
characters, folding them into the accumulator exactly as the C++ loop
`result = result * 10 + (c - '0')` does. -/
def readDigitsAux : List Char → Nat → Nat × List Char
  | [], acc => (acc, [])
  | c :: cs, acc =>
    if c.isDigit then readDigitsAux cs (acc * 10 + (c.toNat - 48)) else (acc, c :: cs)

/-- Tests whether a character list begins with a decimal digit. -/
def startsDigit : List Char → Bool
  | [] => false
  | c :: _ => c.isDigit

/-- Signed decimal reader: optional minus sign followed by at least one digit,
maximal munch.  Used to decode the integers printed by the result encoder. -/
def readInt : List Char → Option (Int × List Char)
  | [] => none
  | c :: cs =>
    if c = '-' then
      if startsDigit cs then
        some (-((readDigitsAux cs 0).1 : Int), (readDigitsAux cs 0).2)
      else none
    else if c.isDigit then
      some (((readDigitsAux (c :: cs) 0).1 : Int), (readDigitsAux (c :: cs) 0).2)
    else none

/-- Suffix of the haystack starting at the first occurrence of the needle,
modeling `std::string::find` (which returns npos, here none, when absent). -/
def findSubSuffix (hay needle : List Char) : Option (List Char) :=
  if needle.isPrefixOf hay then some hay
  else
    match hay with
    | [] => none
    | _ :: t => findSubSuffix t needle

/-- Rest of the list after the first occurrence of the given character,
modeling `std::string::find(c, pos)` followed by `pos + 1`. -/
def afterChar (c : Char) : List Char → Option (List Char)
  | [] => none
  | d :: ds => if d = c then some ds else afterChar c ds

/-- Value of a digit string under the accumulation loop
`result = result * 10 + (json[pos] - '0')` of parseJsonNumber, on ideal
integers (the C++ loop runs on long long; overflow there is undefined
behavior, which no claim exercises). -/
def digitsVal (l : List Char) : Int :=
  l.foldl (fun acc c => acc * 10 + ((c.toNat : Int) - 48)) 0

/-- Model of parseJsonNumber (src/judge_core_cgroup.cpp lines 469-495):
locate the quoted key, locate the colon after it, skip spaces and tabs, and
accumulate the following run of decimal digits; -1 when the key or the colon
is missing. -/
def parseJsonNumber (json key : String) : Int :=
  match findSubSuffix json.data ('"' :: (key.data ++ ['"'])) with
  | none => -1
  | some suf =>
    match afterChar ':' suf with
    | none => -1
    | some afterColon =>
      let t := afterColon.dropWhile (fun c => c = ' ' || c = '\t')
      digitsVal (t.takeWhile (fun c => 48 ≤ c.toNat && c.toNat ≤ 57))

/-- Resource limit record (struct Limits).  time_limit, output_limit and
compile_timeout are C++ ints; memory_limit and stack_limit are long long. -/
structure Limits where
  time_limit : Int
  memory_limit : Int
  output_limit : Int
  compile_timeout : Int
  stack_limit : Int
deriving DecidableEq

/-- Model of loadLimits (src/judge_core_cgroup.cpp lines 515-552).  The file
content is none when the file cannot be opened.  Each parsed field falls back
to its default when non-positive; memory_limit and stack_limit are scaled
from kibibytes to bytes.  toInt32 and wrap64 model the narrowing stores into
the int and long long fields of struct Limits. -/
def loadLimits (content : Option String) : Limits :=
  match content with
  | none =>
    { time_limit := 1000, memory_limit := 67108864, output_limit := 64000000,
      compile_timeout := 30000, stack_limit := 8388608 }
  | some json =>
    let time_limit := parseJsonNumber json "time_limit"
    let memory_limit := parseJsonNumber json "memory_limit"
    let output_limit := parseJsonNumber json "output_limit"
    let compile_timeout := parseJsonNumber json "compile_timeout"
    let stack_limit := parseJsonNumber json "stack_limit"
    { time_limit := toInt32 (if time_limit > 0 then time_limit else 1000),
      memory_limit := if memory_limit > 0 then wrap64 (memory_limit * 1024) else 67108864,
      output_limit := toInt32 (if output_limit > 0 then output_limit else 64000000),
      compile_timeout := toInt32 (if compile_timeout > 0 then compile_timeout else 30000),
      stack_limit := if stack_limit > 0 then wrap64 (stack_limit * 1024) else 8388608 }

/-- Side effects of CgroupManager operations that the claims observe. -/
inductive CgAction
  | rmdir
deriving DecidableEq

namespace CgroupManager

/-- Model of CgroupManager::getCpuCount (lines 303-323): none models an
unreadable /proc/cpuinfo (returns -1); otherwise the number of lines that
begin with "processor", clamped up to 1 when that count is zero. -/
def getCpuCount (cpuinfo : Option (List String)) : Int :=
  match cpuinfo with
  | none => -1
  | some lines =>
    let cpu_count := (lines.filter (fun l => l.startsWith "processor")).length
    if 0 < cpu_count then (cpu_count : Int) else 1

/-- Model of CgroupManager::selectCpuForBinding (lines 276-294): hashVal is
the value of std::hash over the cgroup name and ts the monotonic timestamp
tick count, both as the 64-bit values the C++ code obtains. -/
def selectCpuForBinding (hashVal ts : Nat) (cpuinfo : Option (List String)) : String :=
  let cpu_count := getCpuCount cpuinfo
  if cpu_count ≤ 0 then "0"
  else natRepr ((hashVal ^^^ ts) % cpu_count.toNat)

/-- Modelled from the spec (claim C8 wording, for comparison with the code):
the claimed core count N, "falling back to 1 when the file is unreadable and
to 0 when the file exists but lists none". -/
def specClaimN (cpuinfo : Option (List String)) : Nat :=
  match cpuinfo with
  | none => 1
  | some lines => (lines.filter (fun l => l.startsWith "processor")).length

/-- Effective modulus the code uses: 1 when /proc/cpuinfo is unreadable or
lists no processor line, the processor-line count otherwise. -/
def codeN (cpuinfo : Option (List String)) : Nat :=
  match cpuinfo with
  | none => 1
  | some lines =>
    let c := (lines.filter (fun l => l.startsWith "processor")).length
    if 0 < c then c else 1

/-- Model of CgroupManager::setMemoryLimit (lines 159-170): created is the
internal flag, openOk the success of opening memory.max, writeOk the stream
state after writing the limit. -/
def setMemoryLimit (created : Bool) (limit_bytes : Int) (openOk writeOk : Bool) : Bool :=
  if created = false then false
  else if openOk = false then false
  else writeOk

/-- Model of CgroupManager::setCpuLimit (lines 186-238).  The write of
+cpuset to the root subtree control is ignored on failure (as in the code);
cpusOpen/cpusGood are the outcomes for cpuset.cpus, memsEffective the line
read from the parent cpuset.mems.effective, memsOpen/memsGood the outcomes
for cpuset.mems. -/
def setCpuLimit (created : Bool) (hashVal ts : Nat) (cpuinfo : Option (List String))
    (cpusOpen cpusGood memsOpen memsGood : Bool) : Bool :=
  if created = false then false
  else
    let selected_cpu := selectCpuForBinding hashVal ts cpuinfo
    if selected_cpu = "" then false
    else if cpusOpen = false then false
    else if cpusGood = false then false
    else if memsOpen = false then false
    else memsGood

/-- Model of CgroupManager::addProcess (lines 336-347). -/
def addProcess (created : Bool) (pid : Int) (openOk writeOk : Bool) : Bool :=
  if created = false then false
  else if openOk = false then false
  else writeOk

/-- Model of CgroupManager::getMemoryPeak (lines 362-374): readGood is the
stream state after extracting the integer, v the extracted value. -/
def getMemoryPeak (created openOk readGood : Bool) (v : Int) : Int :=
  if created = false then -1
  else if openOk = false then -1
  else if readGood then v else -1

/-- Model of CgroupManager::getCurrentMemory (lines 385-397). -/
def getCurrentMemory (created openOk readGood : Bool) (v : Int) : Int :=
  if created = false then -1
  else if openOk = false then -1
  else if readGood then v else -1

/-- Model of CgroupManager::getAllocatedCpu (lines 436-448): content is the
line read back from cpuset.cpus. -/
def getAllocatedCpu (created openOk : Bool) (content : String) : String :=
  if created = false then ""
  else if openOk = false then ""
  else content

/-- Model of CgroupManager::cleanup (lines 408-416): returns the filesystem
actions performed and the new created flag. -/
def cleanup (created : Bool) : List CgAction × Bool :=
  if created then ([CgAction.rmdir], false) else ([], false)

end CgroupManager

/-- Judge result record (struct JudgeResult).  time_used and mem_used are
long long, exit_code and output_len are int. -/
structure JudgeResult where
  status : String
  time_used : Int
  mem_used : Int
  exit_code : Int
  error_message : String
  stdout_content : String
  output_len : Int
  allocated_cpu : String
deriving DecidableEq

/-- Exit condition of the reaped child, as decoded by WIFEXITED and
WIFSIGNALED: exited carries the WEXITSTATUS value, signaled the WTERMSIG
value. -/
inductive ChildStatus
  | exited (code : Int)
  | signaled (sig : Nat)
deriving DecidableEq

/-- Child-related system calls the supervisor performs, in order.  killChild
is kill(pid, SIGKILL); reapChild is a successful waitpid/wait4 on the pid. -/
inductive RunAction
  | killChild
  | reapChild
deriving DecidableEq

/-- Outcomes of the system calls made by runProgram's supervisor path, in
program order.  Every field is the value the corresponding call returns in
one concrete execution; runProgram below is a pure function of them. -/
structure RunEnv where
  /-- cgroup.create() succeeded (mkdir of the cgroup directory). -/
  create_ok : Bool
  /-- cgroup.setMemoryLimit(limits.memory_limit) succeeded. -/
  mem_ok : Bool
  /-- cgroup.setCpuLimit() succeeded. -/
  cpu_ok : Bool
  /-- String returned by cgroup.getAllocatedCpu() (the cpuset.cpus line). -/
  allocated_cpu : String
  /-- Both pipe(2) calls succeeded. -/
  pipes_ok : Bool
  /-- fork(2) succeeded. -/
  fork_ok : Bool
  /-- cgroup.addProcess(pid) succeeded. -/
  enroll_ok : Bool
  /-- sched_setaffinity via forceCpuBinding succeeded. -/
  affinity_ok : Bool
  /-- Chunks appended to stdout_output by the select/read drain loop. -/
  stdout_chunks : List String
  /-- Accumulated stderr_output of the drain loop. -/
  stderr_output : String
  /-- wait4 returned successfully. -/
  wait_ok : Bool
  /-- Decoded exit condition of the child. -/
  child_status : ChildStatus
  /-- Wall-clock milliseconds measured from before fork to after wait4. -/
  wall_ms : Int
  /-- Value returned by cgroup.getMemoryPeak() (-1 when unavailable). -/
  memory_peak : Int
  /-- ru_maxrss field of the rusage filled in by wait4 (kibibytes). -/
  ru_maxrss : Int

def SIGABRT : Nat := 6

def SIGFPE : Nat := 8

def SIGKILL : Nat := 9

def SIGSEGV : Nat := 11

def SIGXCPU : Nat := 24

/-- Concatenation of the drained stdout chunks, modeling the repeated
`stdout_output += buffer` of the read loop (lines 751-803). -/
def joinChunks (chunks : List String) : String :=
  chunks.foldl (fun acc c => acc ++ c) ""

/-- A JudgeResult as initialized at the top of runProgram (lines 609-615)
and returned on the early fault paths, with the given error message and
allocated_cpu. -/
def faultResult (msg cpu : String) : JudgeResult :=
  { status := "RE", time_used := 0, mem_used := 0, exit_code := -1,
    error_message := msg, stdout_content := "", output_len := 0,
    allocated_cpu := cpu }

/-- Verdict classification after a successful wait4 (lines 817-914).  warn
is the error_message accumulated before classification (the affinity
warning, possibly empty).  Models the assignments to time_used, mem_used,
stdout_content, output_len and the WIFEXITED/WIFSIGNALED decision tree. -/
def classify (env : RunEnv) (limits : Limits) (warn cpu : String) : JudgeResult :=
  let stdout_output := joinChunks env.stdout_chunks
  let mem_used := if env.memory_peak > 0 then env.memory_peak else env.ru_maxrss * 1024
  let base : JudgeResult :=
    { status := "RE", time_used := env.wall_ms, mem_used := mem_used,
      exit_code := -1, error_message := warn, stdout_content := stdout_output,
      output_len := toInt32 (stdout_output.length : Int), allocated_cpu := cpu }
  match env.child_status with
  | ChildStatus.exited code =>
    if code = 0 then
      { base with
        exit_code := code,
        status :=
          if base.time_used > limits.time_limit then "TLE"
          else if base.mem_used > limits.memory_limit then "MLE"
          else if base.output_len > limits.output_limit then "OLE"
          else "OK" }
    else
      { base with
        exit_code := code,
        status := "RE",
        error_message :=
          "Program exited with non-zero code: " ++ String.mk (intReprL code) ++
            (if env.stderr_output ≠ "" then "\\nStderr: " ++ env.stderr_output else "") }
  | ChildStatus.signaled sig =>
    let ec : Int := 128 + (sig : Int)
    if sig = SIGXCPU then
      { base with
        exit_code := ec,
        status := "TLE",
        error_message := "Time limit exceeded (SIGXCPU)" }
    else if sig = SIGKILL then
      if base.mem_used > limits.memory_limit then
        { base with
          exit_code := ec,
          status := "MLE",
          error_message := "Memory limit exceeded (cgroup)" }
      else
        { base with
          exit_code := ec,
          status := "TLE",
          error_message := "Time limit exceeded (SIGKILL)" }
    else if sig = SIGSEGV then
      { base with
        exit_code := ec,
        status := "RE",
        error_message := "Segmentation fault" }
    else if sig = SIGFPE then
      { base with
        exit_code := ec,
        status := "RE",
        error_message := "Floating point exception" }
    else if sig = SIGABRT then
      if base.mem_used > limits.memory_limit then
        { base with
          exit_code := ec,
          status := "MLE",
          error_message := "Memory limit exceeded (allocation failed)" }
      else
        { base with
          exit_code := ec,
          status := "RE",
          error_message := "Program aborted" }
    else
      { base with
        exit_code := ec,
        status := "RE",
        error_message := "Program terminated by signal " ++ natRepr sig }

/-- Model of runProgram's supervisor path (lines 607-918) as a function of
the system-call outcomes, returning the JudgeResult together with the
ordered kill/reap actions performed on the child.  The child side (dup2,
setrlimit, execl) and the stoi of the cpuset line (which cannot fail on a
kernel-written cpu number) are below this model's abstraction boundary. -/
def runProgram (env : RunEnv) (limits : Limits) : JudgeResult × List RunAction :=
  if env.create_ok = false then
    (faultResult "Failed to create cgroup (需要root权限)" "", [])
  else if env.mem_ok = false then
    (faultResult "Failed to set memory limit in cgroup" "", [])
  else if env.cpu_ok = false then
    (faultResult "Failed to set CPU limit in cgroup" "", [])
  else if env.pipes_ok = false then
    (faultResult "Failed to create pipes" env.allocated_cpu, [])
  else if env.fork_ok = false then
    (faultResult "Failed to fork process" env.allocated_cpu, [])
  else if env.enroll_ok = false then
    (faultResult "Failed to add process to cgroup" env.allocated_cpu,
      [RunAction.killChild, RunAction.reapChild])
  else
    let warn : String :=
      if env.allocated_cpu ≠ "" ∧ env.affinity_ok = false then
        "Warning: Failed to set CPU affinity; "
      else ""
    if env.wait_ok = false then
      (faultResult "Failed to wait for child process" env.allocated_cpu, [])
    else
      (classify env limits warn env.allocated_cpu, [RunAction.reapChild])

/-- Escape of one byte by resultToJson's serialization loops (lines 931-945
and 951-965): double-quote, backslash, newline, carriage return and tab gain
a backslash prefix; every other byte passes through. -/
def escChar (c : Char) : List Char :=
  if c = '"' then ['\\', '"']
  else if c = '\\' then ['\\', '\\']
  else if c = '\n' then ['\\', 'n']
  else if c = '\r' then ['\\', 'r']
  else if c = '\t' then ['\\', 't']
  else [c]

/-- Escaped form of a whole string, as the per-character loop emits it. -/
def escapeL : List Char → List Char
  | [] => []
  | c :: cs => escChar c ++ escapeL cs

def lblStatus : List Char := "\x7b\n  \"status\": \"".data

def lblTime : List Char := ',' :: "\n  \"time_used\": ".data

def lblMem : List Char := ',' :: "\n  \"mem_used\": ".data

def lblExit : List Char := ',' :: "\n  \"exit_code\": ".data

def lblErr : List Char := ',' :: "\n  \"error_message\": \"".data

def lblStdout : List Char := ',' :: "\n  \"stdout\": \"".data

def lblOutLen : List Char := ',' :: "\n  \"output_len\": ".data

def lblCpu : List Char := ',' :: "\n  \"allocated_cpu\": \"".data

def lblEnd : List Char := "\n\x7d".data

/-- Byte-level model of resultToJson (lines 920-973): the exact character
sequence the stringstream accumulates.  status and allocated_cpu are written
without escaping; error_message and stdout_content pass through the escape
loop; the numeric fields are printed in decimal. -/
def resultToJsonL (r : JudgeResult) : List Char :=
  lblStatus ++ (r.status.data ++ (['"'] ++ (lblTime ++ (intReprL
    r.time_used ++ (lblMem ++ (intReprL r.mem_used ++ (lblExit ++ (intReprL
    r.exit_code ++ (lblErr ++ (escapeL r.error_message.data ++ (['"'] ++
    (lblStdout ++ (escapeL r.stdout_content.data ++ (['"'] ++ (lblOutLen ++
    (intReprL r.output_len ++ (lblCpu ++ (r.allocated_cpu.data ++ (['"'] ++
    (lblEnd))))))))))))))))))))

/-- Model of resultToJson as a string. -/
def resultToJson (r : JudgeResult) : String := String.mk (resultToJsonL r)

/-- Strips an expected literal prefix, failing when it does not match. -/
def expectL : List Char → List Char → Option (List Char)
  | [], s => some s
  | _ :: _, [] => none
  | c :: cs, d :: ds => if c = d then expectL cs ds else none

/-- Reads a raw (unescaped) field up to the next double-quote, consuming the
quote.  Inverts the verbatim emission of status and allocated_cpu. -/
def readRaw : List Char → Option (List Char × List Char)
  | [] => none
  | c :: cs =>
    if c = '"' then some ([], cs)
    else
      match readRaw cs with
      | none => none
      | some (p, r) => some (c :: p, r)

/-- Inverse of the escape table of resultToJson for the character following
a backslash. -/
def unesc (e : Char) : Option Char :=
  if e = '"' then some '"'
  else if e = '\\' then some '\\'
  else if e = 'n' then some '\n'
  else if e = 'r' then some '\r'
  else if e = 't' then some '\t'
  else none

/-- Reads an escaped field up to the next unescaped double-quote, undoing
the escape rules and consuming the closing quote. -/
def readEsc : List Char → Option (List Char × List Char)
  | [] => none
  | c :: cs =>
    if c = '"' then some ([], cs)
    else if c = '\\' then
      match cs with
      | [] => none
      | e :: cs2 =>
        match unesc e with
        | none => none
        | some d =>
          match readEsc cs2 with
          | none => none
          | some (p, r) => some (d :: p, r)
    else
      match readEsc cs with
      | none => none
      | some (p, r) => some (c :: p, r)

/-- Decoder for the encoder's output: parses the fixed field skeleton in
order, undoing the escape rules on error_message and stdout and reading
status and allocated_cpu verbatim up to their closing quote. -/
def decodeResultL (s : List Char) : Option JudgeResult :=
  match expectL lblStatus s with
  | none => none
  | some s1 =>
  match readRaw s1 with
  | none => none
  | some (st, s2) =>
  match expectL lblTime s2 with
  | none => none
  | some s3 =>
  match readInt s3 with
  | none => none
  | some (tu, s4) =>
  match expectL lblMem s4 with
  | none => none
  | some s5 =>
  match readInt s5 with
  | none => none
  | some (mu, s6) =>
  match expectL lblExit s6 with
  | none => none
  | some s7 =>
  match readInt s7 with
  | none => none
  | some (ec, s8) =>
  match expectL lblErr s8 with
  | none => none
  | some s9 =>
  match readEsc s9 with
  | none => none
  | some (em, s10) =>
  match expectL lblStdout s10 with
  | none => none
  | some s11 =>
  match readEsc s11 with
  | none => none
  | some (so, s12) =>
  match expectL lblOutLen s12 with
  | none => none
  | some s13 =>
  match readInt s13 with
  | none => none
  | some (ol, s14) =>
  match expectL lblCpu s14 with
  | none => none
  | some s15 =>
  match readRaw s15 with
  | none => none
  | some (ac, s16) =>
  match expectL lblEnd s16 with
  | none => none
  | some s17 =>
    if s17 = [] then
      some { status := String.mk st, time_used := tu, mem_used := mu,
             exit_code := ec, error_message := String.mk em,
             stdout_content := String.mk so, output_len := ol,
             allocated_cpu := String.mk ac }
    else none

/-- Decoder at the string level. -/
def decodeResult (s : String) : Option JudgeResult := decodeResultL s.data

/-- A run environment in which every system call succeeds and the child
exits cleanly after printing five bytes. -/
def envAllOk : RunEnv :=
  { create_ok := true, mem_ok := true, cpu_ok := true, allocated_cpu := "2",
    pipes_ok := true, fork_ok := true, enroll_ok := true, affinity_ok := true,
    stdout_chunks := ["hello"], stderr_output := "", wait_ok := true,
    child_status := ChildStatus.exited 0, wall_ms := 37, memory_peak := 262144,
    ru_maxrss := 640 }

/-- Value parsed for a key out of an optional configuration content: -1 for
a missing file, else the parseJsonNumber result. -/
def parsedLimit (content : Option String) (key : String) : Int :=
  match content with
  | none => -1
  | some json => parseJsonNumber json key

/-- A JudgeResult whose status contains a raw double-quote byte. -/
def rBadC7 : JudgeResult :=
  { status := "O\"K", time_used := 42, mem_used := 123456, exit_code := 0,
    error_message := "", stdout_content := "hi", output_len := 2,
    allocated_cpu := "3" }

/-- A JudgeResult exercising every escape class in its escaped fields. -/
def rGoodC7 : JudgeResult :=
  { status := "OK", time_used := 42, mem_used := 123456, exit_code := -1,
    error_message := "a\"b\\c\nd\re\tf", stdout_content := "hello\n",
    output_len := 6, allocated_cpu := "3" }

theorem toInt32_eq_of_fits (i : Int) (h0 : 0 ≤ i) (h1 : i < 2147483648) :
    toInt32 i = i := by
  unfold toInt32
  rw [Int.emod_eq_of_lt h0 (by omega)]
  simp [h1]

theorem wrap64_eq_of_fits (i : Int) (h0 : 0 ≤ i) (h1 : i < 9223372036854775808) :
    wrap64 i = i := by
  unfold wrap64
  rw [Int.emod_eq_of_lt h0 (by omega)]
  simp [h1]

theorem natDigitsAux_congr (n : Nat) : ∀ (f1 f2 : Nat), n < f1 → n < f2 →
    natDigitsAux f1 n = natDigitsAux f2 n := by
  induction n using Nat.strong_induction_on with
  | _ n ih =>
    intro f1 f2 h1 h2
    obtain ⟨k1, rfl⟩ : ∃ k, f1 = k + 1 := ⟨f1 - 1, by omega⟩
    obtain ⟨k2, rfl⟩ : ∃ k, f2 = k + 1 := ⟨f2 - 1, by omega⟩
    rw [natDigitsAux, natDigitsAux]
    by_cases h : n < 10
    · rw [if_pos h, if_pos h]
    · rw [if_neg h, if_neg h,
        ih (n / 10) (Nat.div_lt_self (by omega) (by omega)) k1 k2 (by omega) (by omega)]

theorem natDigits_eq (n : Nat) :
    natDigits n
      = if n < 10 then [Char.ofNat (48 + n)]
        else natDigits (n / 10) ++ [Char.ofNat (48 + n % 10)] := by
  rw [natDigits, natDigits, natDigitsAux]
  by_cases h : n < 10
  · rw [if_pos h, if_pos h]
  · rw [if_neg h, if_neg h,
      natDigitsAux_congr (n / 10) n (n / 10 + 1)
        (Nat.div_lt_self (by omega) (by omega)) (by omega)]

theorem digitChar_isDigit (d : Nat) (h : d < 10) :
    (Char.ofNat (48 + d)).isDigit = true := by
  interval_cases d <;> decide

theorem digitChar_toNat (d : Nat) (h : d < 10) :
    (Char.ofNat (48 + d)).toNat = 48 + d := by
  interval_cases d <;> decide

theorem natDigits_ne_nil (n : Nat) : natDigits n ≠ [] := by
  rw [natDigits_eq]
  split <;> simp

theorem natDigits_head_isDigit (n : Nat) :
    ∃ c t, natDigits n = c :: t ∧ c.isDigit = true := by
  induction n using Nat.strong_induction_on with
  | _ n ih =>
    rw [natDigits_eq]
    split
    case isTrue h =>
      exact ⟨Char.ofNat (48 + n), [], rfl, digitChar_isDigit n h⟩
    case isFalse h =>
      obtain ⟨c, t, hct, hd⟩ := ih (n / 10) (Nat.div_lt_self (by omega) (by omega))
      exact ⟨c, t ++ [Char.ofNat (48 + n % 10)], by rw [hct]; rfl, hd⟩

theorem readDigitsAux_stop (c : Char) (cs : List Char) (acc : Nat)
    (h : c.isDigit = false) : readDigitsAux (c :: cs) acc = (acc, c :: cs) := by
  simp [readDigitsAux, h]

theorem readDigitsAux_natDigits (n : Nat) : ∀ (acc : Nat) (rest : List Char),
    readDigitsAux (natDigits n ++ rest) acc
      = readDigitsAux rest (acc * 10 ^ (natDigits n).length + n) := by
  induction n using Nat.strong_induction_on with
  | _ n ih =>
    intro acc rest
    by_cases h : n < 10
    · rw [natDigits_eq]
      simp only [h, if_true, ite_true, List.cons_append, List.nil_append,
        List.length_cons, List.length_nil]
      rw [readDigitsAux]
      simp [digitChar_isDigit n h, digitChar_toNat n h]
    · rw [natDigits_eq]
      simp only [h, if_false, ite_false]
      rw [List.append_assoc, ih (n / 10) (Nat.div_lt_self (by omega) (by omega)),
        List.cons_append, List.nil_append, readDigitsAux]
      have h10 : n % 10 < 10 := Nat.mod_lt n (by omega)
      simp only [digitChar_isDigit (n % 10) h10, digitChar_toNat (n % 10) h10, if_true]
      have hlen : (natDigits (n / 10) ++ [Char.ofNat (48 + n % 10)]).length
          = (natDigits (n / 10)).length + 1 := by simp
      rw [hlen]
      congr 1
      have := Nat.div_add_mod n 10
      ring_nf
      omega

theorem isDigit_ne_minus (c : Char) (h : c.isDigit = true) : c ≠ '-' := by
  intro he; subst he; simp at h

theorem readInt_intReprL (i : Int) (c : Char) (s : List Char)
    (hc : c.isDigit = false) :
    readInt (intReprL i ++ c :: s) = some (i, c :: s) := by
  by_cases hi : i < 0
  · have habs : 0 < i.natAbs := by omega
    obtain ⟨d, t, hdt, hd⟩ := natDigits_head_isDigit i.natAbs
    simp only [intReprL, hi, if_true, List.cons_append]
    rw [readInt]
    have hsd : startsDigit (natDigits i.natAbs ++ c :: s) = true := by
      rw [hdt]; simpa [startsDigit] using hd
    simp only [if_pos rfl, hsd, if_true, ite_true]
    rw [readDigitsAux_natDigits, readDigitsAux_stop c s _ hc]
    simp only [Option.some.injEq, Prod.mk.injEq, and_true]
    omega
  · obtain ⟨d, t, hdt, hd⟩ := natDigits_head_isDigit i.toNat
    simp only [intReprL, hi, if_false, ite_false]
    rw [hdt, List.cons_append, readInt]
    have hdm : ¬ (d = '-') := isDigit_ne_minus d hd
    simp only [hdm, if_false, ite_false, hd, if_true, ite_true]
    rw [← List.cons_append, ← hdt, readDigitsAux_natDigits, readDigitsAux_stop c s _ hc]
    simp
    omega

theorem expectL_append (l s : List Char) : expectL l (l ++ s) = some s := by
  induction l with
  | nil => rfl
  | cons c cs ih => simp [expectL, ih]

theorem expectL_self (l : List Char) : expectL l l = some [] := by
  have h := expectL_append l []
  simpa using h

theorem readRaw_append (p s : List Char) (h : '"' ∉ p) :
    readRaw (p ++ '"' :: s) = some (p, s) := by
  induction p with
  | nil => simp [readRaw]
  | cons c cs ih =>
    have hc : ¬ (c = '"') := by intro he; exact h (he ▸ List.mem_cons_self c cs)
    have hcs : '"' ∉ cs := fun hm => h (List.mem_cons_of_mem c hm)
    simp [readRaw, hc, ih hcs]

theorem readEsc_escapeL (p s : List Char) :
    readEsc (escapeL p ++ '"' :: s) = some (p, s) := by
  induction p with
  | nil =>
    rw [escapeL, List.nil_append, readEsc.eq_def]
    simp
  | cons c cs ih =>
    rw [escapeL, List.append_assoc]
    by_cases h1 : c = '"'
    · subst h1
      rw [escChar]
      simp only [if_pos rfl, List.cons_append, List.nil_append]
      rw [readEsc.eq_def]
      simp [unesc, ih]
    · by_cases h2 : c = '\\'
      · subst h2
        rw [escChar]
        simp only [if_pos rfl, if_neg (by decide : ¬ ('\\' = '"')), List.cons_append,
          List.nil_append]
        rw [readEsc.eq_def]
        simp [unesc, ih]
      · by_cases h3 : c = '\n'
        · subst h3
          rw [escChar]
          simp only [if_pos rfl, if_neg (by decide : ¬ ('\n' = '"')),
            if_neg (by decide : ¬ ('\n' = '\\')), List.cons_append, List.nil_append]
          rw [readEsc.eq_def]
          simp [unesc, ih]
        · by_cases h4 : c = '\r'
          · subst h4
            rw [escChar]
            simp only [if_pos rfl, if_neg (by decide : ¬ ('\r' = '"')),
              if_neg (by decide : ¬ ('\r' = '\\')), if_neg (by decide : ¬ ('\r' = '\n')),
              List.cons_append, List.nil_append]
            rw [readEsc.eq_def]
            simp [unesc, ih]
          · by_cases h5 : c = '\t'
            · subst h5
              rw [escChar]
              simp only [if_pos rfl, if_neg (by decide : ¬ ('\t' = '"')),
                if_neg (by decide : ¬ ('\t' = '\\')), if_neg (by decide : ¬ ('\t' = '\n')),
                if_neg (by decide : ¬ ('\t' = '\r')), List.cons_append, List.nil_append]
              rw [readEsc.eq_def]
              simp [unesc, ih]
            · rw [escChar]
              simp only [if_neg h1, if_neg h2, if_neg h3, if_neg h4, if_neg h5,
                List.cons_append, List.nil_append]
              rw [readEsc.eq_def]
              simp [h1, h2, ih]

theorem readInt_comma (i : Int) (s : List Char) :
    readInt (intReprL i ++ ',' :: s) = some (i, ',' :: s) :=
  readInt_intReprL i ',' s (by decide)

theorem readInt_lblMem (i : Int) (s : List Char) :
    readInt (intReprL i ++ (lblMem ++ s)) = some (i, lblMem ++ s) := by
  rw [lblMem, List.cons_append]
  exact readInt_comma i _

theorem readInt_lblExit (i : Int) (s : List Char) :
    readInt (intReprL i ++ (lblExit ++ s)) = some (i, lblExit ++ s) := by
  rw [lblExit, List.cons_append]
  exact readInt_comma i _

theorem readInt_lblErr (i : Int) (s : List Char) :
    readInt (intReprL i ++ (lblErr ++ s)) = some (i, lblErr ++ s) := by
  rw [lblErr, List.cons_append]
  exact readInt_comma i _

theorem readInt_lblCpu (i : Int) (s : List Char) :
    readInt (intReprL i ++ (lblCpu ++ s)) = some (i, lblCpu ++ s) := by
  rw [lblCpu, List.cons_append]
  exact readInt_comma i _

theorem runProgram_success (env : RunEnv) (limits : Limits)
    (h1 : env.create_ok = true) (h2 : env.mem_ok = true) (h3 : env.cpu_ok = true)
    (h4 : env.pipes_ok = true) (h5 : env.fork_ok = true) (h6 : env.enroll_ok = true)
    (h7 : env.wait_ok = true) :
    runProgram env limits
      = (classify env limits
          (if env.allocated_cpu ≠ "" ∧ env.affinity_ok = false then
            "Warning: Failed to set CPU affinity; "
           else "") env.allocated_cpu,
         [RunAction.reapChild]) := by
  rw [runProgram]
  simp [h1, h2, h3, h4, h5, h6, h7]

theorem classify_ok (env : RunEnv) (limits : Limits) (warn cpu : String)
    (h : (classify env limits warn cpu).status = "OK") :
    (classify env limits warn cpu).exit_code = 0
    ∧ (classify env limits warn cpu).time_used ≤ limits.time_limit
    ∧ (classify env limits warn cpu).mem_used ≤ limits.memory_limit
    ∧ (classify env limits warn cpu).output_len ≤ limits.output_limit := by
  obtain ⟨cok, mok, cpuok, acpu, pok, fok, eok, aok, chunks, serr, wok, cs, wall, peak, rss⟩ :=
    env
  rcases cs with code | sig
  · rw [classify] at h ⊢
    dsimp only at h ⊢
    by_cases hc0 : code = 0
    · rw [if_pos hc0] at h ⊢
      dsimp only at h ⊢
      split_ifs at h ⊢ <;>
        first
          | exact ⟨hc0, by omega, by omega, by omega⟩
          | simp at h
    · rw [if_neg hc0] at h
      dsimp only at h
      simp at h
  · rw [classify] at h
    dsimp only at h
    split_ifs at h <;> simp at h

theorem classify_signaled (env : RunEnv) (limits : Limits) (warn cpu : String) (sig : Nat)
    (h : env.child_status = ChildStatus.signaled sig) :
    (classify env limits warn cpu).exit_code = 128 + (sig : Int)
    ∧ (sig = SIGXCPU → (classify env limits warn cpu).status = "TLE")
    ∧ (sig = SIGKILL →
        ((classify env limits warn cpu).mem_used > limits.memory_limit →
          (classify env limits warn cpu).status = "MLE")
        ∧ (¬ (classify env limits warn cpu).mem_used > limits.memory_limit →
          (classify env limits warn cpu).status = "TLE"))
    ∧ (sig = SIGSEGV → (classify env limits warn cpu).status = "RE"
        ∧ (classify env limits warn cpu).error_message = "Segmentation fault")
    ∧ (sig = SIGFPE → (classify env limits warn cpu).status = "RE"
        ∧ (classify env limits warn cpu).error_message = "Floating point exception")
    ∧ (sig = SIGABRT →
        ((classify env limits warn cpu).mem_used > limits.memory_limit →
          (classify env limits warn cpu).status = "MLE")
        ∧ (¬ (classify env limits warn cpu).mem_used > limits.memory_limit →
          (classify env limits warn cpu).status = "RE"
          ∧ (classify env limits warn cpu).error_message = "Program aborted"))
    ∧ (sig ≠ SIGXCPU → sig ≠ SIGKILL → sig ≠ SIGSEGV → sig ≠ SIGFPE → sig ≠ SIGABRT →
        (classify env limits warn cpu).status = "RE"
        ∧ (classify env limits warn cpu).error_message
            = "Program terminated by signal " ++ natRepr sig) := by
  obtain ⟨cok, mok, cpuok, acpu, pok, fok, eok, aok, chunks, serr, wok, cs, wall, peak, rss⟩ :=
    env
  dsimp only at h
  subst h
  rw [classify]
  dsimp only
  by_cases hm : (if peak > 0 then peak else rss * 1024) > limits.memory_limit
  · simp only [if_pos hm]
    refine ⟨?_, ?_, ?_, ?_, ?_, ?_, ?_⟩
    · split_ifs <;> rfl
    · intro hs; subst hs
      simp only [eq_self_iff_true, if_true]
    · intro hs; subst hs
      rw [if_neg (by decide : ¬ (SIGKILL = SIGXCPU))]
      simp only [eq_self_iff_true, if_true]
      simp [hm]
    · intro hs; subst hs
      rw [if_neg (by decide : ¬ (SIGSEGV = SIGXCPU)),
        if_neg (by decide : ¬ (SIGSEGV = SIGKILL))]
      simp only [eq_self_iff_true, if_true]
      simp
    · intro hs; subst hs
      rw [if_neg (by decide : ¬ (SIGFPE = SIGXCPU)),
        if_neg (by decide : ¬ (SIGFPE = SIGKILL)),
        if_neg (by decide : ¬ (SIGFPE = SIGSEGV))]
      simp only [eq_self_iff_true, if_true]
      simp
    · intro hs; subst hs
      rw [if_neg (by decide : ¬ (SIGABRT = SIGXCPU)),
        if_neg (by decide : ¬ (SIGABRT = SIGKILL)),
        if_neg (by decide : ¬ (SIGABRT = SIGSEGV)),
        if_neg (by decide : ¬ (SIGABRT = SIGFPE))]
      simp only [eq_self_iff_true, if_true]
      simp [hm]
    · intro hn1 hn2 hn3 hn4 hn5
      rw [if_neg hn1, if_neg hn2, if_neg hn3, if_neg hn4, if_neg hn5]
      exact ⟨rfl, rfl⟩
  · simp only [if_neg hm]
    refine ⟨?_, ?_, ?_, ?_, ?_, ?_, ?_⟩
    · split_ifs <;> rfl
    · intro hs; subst hs
      simp only [eq_self_iff_true, if_true]
    · intro hs; subst hs
      rw [if_neg (by decide : ¬ (SIGKILL = SIGXCPU))]
      simp only [eq_self_iff_true, if_true]
      simp [hm]
    · intro hs; subst hs
      rw [if_neg (by decide : ¬ (SIGSEGV = SIGXCPU)),
        if_neg (by decide : ¬ (SIGSEGV = SIGKILL))]
      simp only [eq_self_iff_true, if_true]
      simp
    · intro hs; subst hs
      rw [if_neg (by decide : ¬ (SIGFPE = SIGXCPU)),
        if_neg (by decide : ¬ (SIGFPE = SIGKILL)),
        if_neg (by decide : ¬ (SIGFPE = SIGSEGV))]
      simp only [eq_self_iff_true, if_true]
      simp
    · intro hs; subst hs
      rw [if_neg (by decide : ¬ (SIGABRT = SIGXCPU)),
        if_neg (by decide : ¬ (SIGABRT = SIGKILL)),
        if_neg (by decide : ¬ (SIGABRT = SIGSEGV)),
        if_neg (by decide : ¬ (SIGABRT = SIGFPE))]
      simp only [eq_self_iff_true, if_true]
      simp [hm]
    · intro hn1 hn2 hn3 hn4 hn5
      rw [if_neg hn1, if_neg hn2, if_neg hn3, if_neg hn4, if_neg hn5]
      exact ⟨rfl, rfl⟩

theorem classify_clean_exit (env : RunEnv) (limits : Limits) (warn cpu : String)
    (h : env.child_status = ChildStatus.exited 0) :
    ((classify env limits warn cpu).time_used > limits.time_limit →
      (classify env limits warn cpu).status = "TLE")
    ∧ ((classify env limits warn cpu).time_used ≤ limits.time_limit →
      (classify env limits warn cpu).mem_used > limits.memory_limit →
      (classify env limits warn cpu).status = "MLE")
    ∧ ((classify env limits warn cpu).time_used ≤ limits.time_limit →
      (classify env limits warn cpu).mem_used ≤ limits.memory_limit →
      (classify env limits warn cpu).output_len > limits.output_limit →
      (classify env limits warn cpu).status = "OLE")
    ∧ ((classify env limits warn cpu).time_used ≤ limits.time_limit →
      (classify env limits warn cpu).mem_used ≤ limits.memory_limit →
      (classify env limits warn cpu).output_len ≤ limits.output_limit →
      (classify env limits warn cpu).status = "OK") := by
  obtain ⟨cok, mok, cpuok, acpu, pok, fok, eok, aok, chunks, serr, wok, cs, wall, peak, rss⟩ :=
    env
  dsimp only at h
  subst h
  rw [classify]
  dsimp only
  rw [if_pos (rfl : (0 : Int) = 0)]
  dsimp only
  refine ⟨?_, ?_, ?_, ?_⟩
  · intro ht
    rw [if_pos ht]
  · intro ht hm
    rw [if_neg (by omega), if_pos hm]
  · intro ht hm ho
    rw [if_neg (by omega), if_neg (by omega), if_pos ho]
  · intro ht hm ho
    rw [if_neg (by omega), if_neg (by omega), if_neg (by omega)]

set_option maxRecDepth 4000 in
theorem classify_fields (env : RunEnv) (limits : Limits) (warn cpu : String) :
    (classify env limits warn cpu).stdout_content = joinChunks env.stdout_chunks
    ∧ (classify env limits warn cpu).output_len
        = toInt32 ((joinChunks env.stdout_chunks).length : Int) := by
  obtain ⟨cok, mok, cpuok, acpu, pok, fok, eok, aok, chunks, serr, wok, cs, wall, peak, rss⟩ :=
    env
  rcases cs with code | sig
  · rw [classify]
    dsimp only
    by_cases hc0 : code = 0
    · rw [if_pos hc0]
      exact ⟨by dsimp only, by dsimp only⟩
    · rw [if_neg hc0]
      exact ⟨by dsimp only, by dsimp only⟩
  · rw [classify]
    dsimp only
    split_ifs <;> exact ⟨by dsimp only, by dsimp only⟩

/-- Claim C1 (amended): for every run-stage sandbox fault — cgroup creation,
memory-limit write, cpu-limit write, pipe creation, fork, enrollment into
the cgroup, or reaping failure — runProgram returns a JudgeResult whose
status is "RE" (the status initialized at entry; the spec wrote "SE") with a
short explanatory error_message, and on enrollment failure the child is sent
SIGKILL and then reaped before the result is returned. -/
theorem runProgram_fault_paths (env : RunEnv) (limits : Limits) :
    (env.create_ok = false →
      (runProgram env limits).1.status = "RE"
      ∧ (runProgram env limits).1.error_message = "Failed to create cgroup (需要root权限)"
      ∧ (runProgram env limits).2 = [])
    ∧ (env.create_ok = true → env.mem_ok = false →
      (runProgram env limits).1.status = "RE"
      ∧ (runProgram env limits).1.error_message = "Failed to set memory limit in cgroup"
      ∧ (runProgram env limits).2 = [])
    ∧ (env.create_ok = true → env.mem_ok = true → env.cpu_ok = false →
      (runProgram env limits).1.status = "RE"
      ∧ (runProgram env limits).1.error_message = "Failed to set CPU limit in cgroup"
      ∧ (runProgram env limits).2 = [])
    ∧ (env.create_ok = true → env.mem_ok = true → env.cpu_ok = true →
        env.pipes_ok = false →
      (runProgram env limits).1.status = "RE"
      ∧ (runProgram env limits).1.error_message = "Failed to create pipes"
      ∧ (runProgram env limits).2 = [])
    ∧ (env.create_ok = true → env.mem_ok = true → env.cpu_ok = true →
        env.pipes_ok = true → env.fork_ok = false →
      (runProgram env limits).1.status = "RE"
      ∧ (runProgram env limits).1.error_message = "Failed to fork process"
      ∧ (runProgram env limits).2 = [])
    ∧ (env.create_ok = true → env.mem_ok = true → env.cpu_ok = true →
        env.pipes_ok = true → env.fork_ok = true → env.enroll_ok = false →
      (runProgram env limits).1.status = "RE"
      ∧ (runProgram env limits).1.error_message = "Failed to add process to cgroup"
      ∧ (runProgram env limits).2 = [RunAction.killChild, RunAction.reapChild])
    ∧ (env.create_ok = true → env.mem_ok = true → env.cpu_ok = true →
        env.pipes_ok = true → env.fork_ok = true → env.enroll_ok = true →
        env.wait_ok = false →
      (runProgram env limits).1.status = "RE"
      ∧ (runProgram env limits).1.error_message = "Failed to wait for child process"
      ∧ (runProgram env limits).2 = []) := by
  refine ⟨?_, ?_, ?_, ?_, ?_, ?_, ?_⟩
  · intro e1
    simp [runProgram, e1, faultResult]
  · intro e1 e2
    simp [runProgram, e1, e2, faultResult]
  · intro e1 e2 e3
    simp [runProgram, e1, e2, e3, faultResult]
  · intro e1 e2 e3 e4
    simp [runProgram, e1, e2, e3, e4, faultResult]
  · intro e1 e2 e3 e4 e5
    simp [runProgram, e1, e2, e3, e4, e5, faultResult]
  · intro e1 e2 e3 e4 e5 e6
    simp [runProgram, e1, e2, e3, e4, e5, e6, faultResult]
  · intro e1 e2 e3 e4 e5 e6 e7
    simp [runProgram, e1, e2, e3, e4, e5, e6, e7, faultResult]

/-- Claim C1 counterexample: when cgroup creation fails the returned status
is "RE" and not "SE" as the claim states. -/
theorem runProgram_fault_not_se :
    (runProgram { envAllOk with create_ok := false } (loadLimits none)).1.status = "RE"
    ∧ (runProgram { envAllOk with create_ok := false } (loadLimits none)).1.status ≠ "SE" := by
  decide

/-- Claim C1 witness: the enrollment-failure conjunct applied to a concrete
environment. -/
theorem runProgram_fault_paths_inst :
    (runProgram { envAllOk with enroll_ok := false } (loadLimits none)).1.status = "RE"
    ∧ (runProgram { envAllOk with enroll_ok := false } (loadLimits none)).1.error_message
        = "Failed to add process to cgroup"
    ∧ (runProgram { envAllOk with enroll_ok := false } (loadLimits none)).2
        = [RunAction.killChild, RunAction.reapChild] :=
  (runProgram_fault_paths { envAllOk with enroll_ok := false }
    (loadLimits none)).2.2.2.2.2.1 rfl rfl rfl rfl rfl rfl

/-- Claim C2 (confirmed): for every child terminated by a signal, runProgram
sets exit_code to 128 plus the signal number and classifies the verdict by
the signal — SIGXCPU gives TLE; SIGKILL gives MLE when mem_used exceeds the
memory limit and otherwise TLE; SIGSEGV gives RE "Segmentation fault";
SIGFPE gives RE "Floating point exception"; SIGABRT gives MLE when mem_used
exceeds the memory limit and otherwise RE "Program aborted"; any other
signal gives RE "Program terminated by signal N". -/
theorem runProgram_signal_classification (env : RunEnv) (limits : Limits) (sig : Nat)
    (h1 : env.create_ok = true) (h2 : env.mem_ok = true) (h3 : env.cpu_ok = true)
    (h4 : env.pipes_ok = true) (h5 : env.fork_ok = true) (h6 : env.enroll_ok = true)
    (h7 : env.wait_ok = true) (h8 : env.child_status = ChildStatus.signaled sig) :
    (runProgram env limits).1.exit_code = 128 + (sig : Int)
    ∧ (sig = SIGXCPU → (runProgram env limits).1.status = "TLE")
    ∧ (sig = SIGKILL →
        ((runProgram env limits).1.mem_used > limits.memory_limit →
          (runProgram env limits).1.status = "MLE")
        ∧ (¬ (runProgram env limits).1.mem_used > limits.memory_limit →
          (runProgram env limits).1.status = "TLE"))
    ∧ (sig = SIGSEGV → (runProgram env limits).1.status = "RE"
        ∧ (runProgram env limits).1.error_message = "Segmentation fault")
    ∧ (sig = SIGFPE → (runProgram env limits).1.status = "RE"
        ∧ (runProgram env limits).1.error_message = "Floating point exception")
    ∧ (sig = SIGABRT →
        ((runProgram env limits).1.mem_used > limits.memory_limit →
          (runProgram env limits).1.status = "MLE")
        ∧ (¬ (runProgram env limits).1.mem_used > limits.memory_limit →
          (runProgram env limits).1.status = "RE"
          ∧ (runProgram env limits).1.error_message = "Program aborted"))
    ∧ (sig ≠ SIGXCPU → sig ≠ SIGKILL → sig ≠ SIGSEGV → sig ≠ SIGFPE → sig ≠ SIGABRT →
        (runProgram env limits).1.status = "RE"
        ∧ (runProgram env limits).1.error_message
            = "Program terminated by signal " ++ natRepr sig) := by
  rw [runProgram_success env limits h1 h2 h3 h4 h5 h6 h7]
  exact classify_signaled env limits
    (if env.allocated_cpu ≠ "" ∧ env.affinity_ok = false then
      "Warning: Failed to set CPU affinity; "
     else "") env.allocated_cpu sig h8

/-- Claim C2 witness: a concrete SIGSEGV termination is classified RE with
message "Segmentation fault" and exit code 128 + 11. -/
theorem runProgram_signal_classification_inst :
    (runProgram { envAllOk with child_status := ChildStatus.signaled 11 }
      (loadLimits none)).1.exit_code = 128 + (11 : Int)
    ∧ (runProgram { envAllOk with child_status := ChildStatus.signaled 11 }
        (loadLimits none)).1.status = "RE"
    ∧ (runProgram { envAllOk with child_status := ChildStatus.signaled 11 }
        (loadLimits none)).1.error_message = "Segmentation fault" := by
  have h := runProgram_signal_classification
    { envAllOk with child_status := ChildStatus.signaled 11 } (loadLimits none) 11
    rfl rfl rfl rfl rfl rfl rfl rfl
  exact ⟨h.1, (h.2.2.2.1 rfl).1, (h.2.2.2.1 rfl).2⟩

/-- Claim C3 (confirmed): every run whose final JudgeResult has status OK
satisfies exit_code = 0, time_used within the time limit, mem_used within
the memory limit and output_len within the output limit. -/
theorem runProgram_ok_invariant (env : RunEnv) (limits : Limits)
    (h : (runProgram env limits).1.status = "OK") :
    (runProgram env limits).1.exit_code = 0
    ∧ (runProgram env limits).1.time_used ≤ limits.time_limit
    ∧ (runProgram env limits).1.mem_used ≤ limits.memory_limit
    ∧ (runProgram env limits).1.output_len ≤ limits.output_limit := by
  rw [runProgram] at h ⊢
  split_ifs at h ⊢ <;>
    first
      | exact classify_ok _ _ _ _ h
      | exact absurd h (by simp [faultResult])

/-- Claim C3 witness: a concrete clean run is classified OK and satisfies
the four bounds. -/
theorem runProgram_ok_invariant_inst :
    (runProgram envAllOk (loadLimits none)).1.status = "OK"
    ∧ ((runProgram envAllOk (loadLimits none)).1.exit_code = 0
      ∧ (runProgram envAllOk (loadLimits none)).1.time_used ≤ (loadLimits none).time_limit
      ∧ (runProgram envAllOk (loadLimits none)).1.mem_used ≤ (loadLimits none).memory_limit
      ∧ (runProgram envAllOk (loadLimits none)).1.output_len
          ≤ (loadLimits none).output_limit) :=
  ⟨by decide, runProgram_ok_invariant envAllOk (loadLimits none) (by decide)⟩

/-- Claim C4 (confirmed): for a child that exits normally with code 0 the
verdict is decided by strict comparisons in the fixed order TLE, then MLE,
then OLE, else OK; in particular a run whose time_used equals the time limit
exactly, with memory and output within bounds, is classified OK. -/
theorem runProgram_clean_exit_order (env : RunEnv) (limits : Limits)
    (h1 : env.create_ok = true) (h2 : env.mem_ok = true) (h3 : env.cpu_ok = true)
    (h4 : env.pipes_ok = true) (h5 : env.fork_ok = true) (h6 : env.enroll_ok = true)
    (h7 : env.wait_ok = true) (h8 : env.child_status = ChildStatus.exited 0) :
    ((runProgram env limits).1.time_used > limits.time_limit →
      (runProgram env limits).1.status = "TLE")
    ∧ ((runProgram env limits).1.time_used ≤ limits.time_limit →
      (runProgram env limits).1.mem_used > limits.memory_limit →
      (runProgram env limits).1.status = "MLE")
    ∧ ((runProgram env limits).1.time_used ≤ limits.time_limit →
      (runProgram env limits).1.mem_used ≤ limits.memory_limit →
      (runProgram env limits).1.output_len > limits.output_limit →
      (runProgram env limits).1.status = "OLE")
    ∧ ((runProgram env limits).1.time_used ≤ limits.time_limit →
      (runProgram env limits).1.mem_used ≤ limits.memory_limit →
      (runProgram env limits).1.output_len ≤ limits.output_limit →
      (runProgram env limits).1.status = "OK")
    ∧ ((runProgram env limits).1.time_used = limits.time_limit →
      (runProgram env limits).1.mem_used ≤ limits.memory_limit →
      (runProgram env limits).1.output_len ≤ limits.output_limit →
      (runProgram env limits).1.status = "OK") := by
  rw [runProgram_success env limits h1 h2 h3 h4 h5 h6 h7]
  have h := classify_clean_exit env limits
    (if env.allocated_cpu ≠ "" ∧ env.affinity_ok = false then
      "Warning: Failed to set CPU affinity; "
     else "") env.allocated_cpu h8
  exact ⟨h.1, h.2.1, h.2.2.1, h.2.2.2, fun he hm ho => h.2.2.2 (le_of_eq he) hm ho⟩

/-- Claim C4 witness: a run that takes exactly the time limit with memory
and output in bounds is classified OK. -/
theorem runProgram_clean_exit_order_inst :
    (runProgram { envAllOk with wall_ms := 1000 } (loadLimits none)).1.status = "OK" := by
  have h := runProgram_clean_exit_order { envAllOk with wall_ms := 1000 }
    (loadLimits none) rfl rfl rfl rfl rfl rfl rfl rfl
  exact h.2.2.2.2 (by decide) (by decide) (by decide)

/-- Claim C6 (amended): in every reaped run, stdout_content holds exactly
the bytes drained from the child's standard output pipe — the capture loop
never truncates at the configured output limit — and output_len is the
32-bit narrowing of the byte length of stdout_content, equal to that length
whenever it is below 2^31. -/
theorem runProgram_stdout_capture (env : RunEnv) (limits : Limits)
    (h1 : env.create_ok = true) (h2 : env.mem_ok = true) (h3 : env.cpu_ok = true)
    (h4 : env.pipes_ok = true) (h5 : env.fork_ok = true) (h6 : env.enroll_ok = true)
    (h7 : env.wait_ok = true) :
    (runProgram env limits).1.stdout_content = joinChunks env.stdout_chunks
    ∧ (runProgram env limits).1.output_len
        = toInt32 (((runProgram env limits).1.stdout_content.length : Int))
    ∧ (((runProgram env limits).1.stdout_content.length : Int) < 2147483648 →
        (runProgram env limits).1.output_len
          = ((runProgram env limits).1.stdout_content.length : Int)) := by
  rw [runProgram_success env limits h1 h2 h3 h4 h5 h6 h7]
  have h := classify_fields env limits
    (if env.allocated_cpu ≠ "" ∧ env.affinity_ok = false then
      "Warning: Failed to set CPU affinity; "
     else "") env.allocated_cpu
  refine ⟨h.1, ?_, ?_⟩
  · have h1c := h.1
    rw [show ((classify env limits
        (if env.allocated_cpu ≠ "" ∧ env.affinity_ok = false then
          "Warning: Failed to set CPU affinity; "
         else "") env.allocated_cpu, [RunAction.reapChild]).1.stdout_content
        = joinChunks env.stdout_chunks) from h1c]
    exact h.2
  · intro hlen
    rw [show ((classify env limits
        (if env.allocated_cpu ≠ "" ∧ env.affinity_ok = false then
          "Warning: Failed to set CPU affinity; "
         else "") env.allocated_cpu, [RunAction.reapChild]).1.stdout_content
        = joinChunks env.stdout_chunks) from h.1] at hlen ⊢
    rw [h.2]
    exact toInt32_eq_of_fits _ (by omega) hlen

/-- Claim C6 counterexample: with an output limit of 5 bytes a clean run
whose child wrote 6 bytes still carries all 6 bytes in stdout_content (and
is classified OLE), so capture does not stop at the output limit. -/
theorem runProgram_stdout_not_capped :
    ¬ (((runProgram { envAllOk with stdout_chunks := ["AAAAAA"] }
          { time_limit := 1000, memory_limit := 67108864, output_limit := 5,
            compile_timeout := 30000, stack_limit := 8388608 }).1.stdout_content.length : Int)
        ≤ (5 : Int))
    ∧ (runProgram { envAllOk with stdout_chunks := ["AAAAAA"] }
        { time_limit := 1000, memory_limit := 67108864, output_limit := 5,
          compile_timeout := 30000, stack_limit := 8388608 }).1.status = "OLE" := by
  decide

/-- Claim C6 witness: in a concrete clean run the captured stdout equals the
joined chunks and output_len equals its byte length. -/
theorem runProgram_stdout_capture_inst :
    (runProgram envAllOk (loadLimits none)).1.stdout_content
      = joinChunks envAllOk.stdout_chunks
    ∧ (runProgram envAllOk (loadLimits none)).1.output_len
        = (((runProgram envAllOk (loadLimits none)).1.stdout_content.length : Int)) := by
  have h := runProgram_stdout_capture envAllOk (loadLimits none)
    rfl rfl rfl rfl rfl rfl rfl
  exact ⟨h.1, h.2.2 (by decide)⟩

/-- Claim C9 (amended): allocated_cpu is the empty string exactly for the
faults that occur before the CPU allocation is read back from cpuset.cpus
(cgroup creation, memory-limit write and cpu-limit write failures); for
pipe-creation and fork failures the result already carries the string read
from cpuset.cpus, because runProgram stores it before creating the pipes. -/
theorem runProgram_allocated_cpu_faults (env : RunEnv) (limits : Limits) :
    (env.create_ok = false → (runProgram env limits).1.allocated_cpu = "")
    ∧ (env.create_ok = true → env.mem_ok = false →
      (runProgram env limits).1.allocated_cpu = "")
    ∧ (env.create_ok = true → env.mem_ok = true → env.cpu_ok = false →
      (runProgram env limits).1.allocated_cpu = "")
    ∧ (env.create_ok = true → env.mem_ok = true → env.cpu_ok = true →
        env.pipes_ok = false →
      (runProgram env limits).1.allocated_cpu = env.allocated_cpu)
    ∧ (env.create_ok = true → env.mem_ok = true → env.cpu_ok = true →
        env.pipes_ok = true → env.fork_ok = false →
      (runProgram env limits).1.allocated_cpu = env.allocated_cpu) := by
  refine ⟨?_, ?_, ?_, ?_, ?_⟩
  · intro e1
    simp [runProgram, e1, faultResult]
  · intro e1 e2
    simp [runProgram, e1, e2, faultResult]
  · intro e1 e2 e3
    simp [runProgram, e1, e2, e3, faultResult]
  · intro e1 e2 e3 e4
    simp [runProgram, e1, e2, e3, e4, faultResult]
  · intro e1 e2 e3 e4 e5
    simp [runProgram, e1, e2, e3, e4, e5, faultResult]

/-- Claim C9 counterexample: on a pipe-creation failure after a successful
CPU setup that read back core "3", the returned allocated_cpu is "3", not
the empty string the claim requires. -/
theorem runProgram_allocated_cpu_nonempty_cex :
    (runProgram { envAllOk with allocated_cpu := "3", pipes_ok := false }
      (loadLimits none)).1.allocated_cpu = "3"
    ∧ (runProgram { envAllOk with allocated_cpu := "3", pipes_ok := false }
        (loadLimits none)).1.allocated_cpu ≠ "" := by
  decide

/-- Claim C9 witness: a cgroup-creation failure leaves allocated_cpu
empty. -/
theorem runProgram_allocated_cpu_faults_inst :
    (runProgram { envAllOk with create_ok := false } (loadLimits none)).1.allocated_cpu
      = "" :=
  (runProgram_allocated_cpu_faults { envAllOk with create_ok := false }
    (loadLimits none)).1 rfl

theorem toInt32_if_pos (v d : Int) (hv : v < 2147483648) (hd : 0 < d)
    (hdf : d < 2147483648) : 0 < toInt32 (if v > 0 then v else d) := by
  by_cases h : v > 0
  · rw [if_pos h, toInt32_eq_of_fits v (by omega) hv]
    exact h
  · rw [if_neg h, toInt32_eq_of_fits d (by omega) hdf]
    exact hd

theorem toInt32_if_default (v d : Int) (h : v ≤ 0) (hd0 : 0 ≤ d)
    (hdf : d < 2147483648) : toInt32 (if v > 0 then v else d) = d := by
  rw [if_neg (by omega), toInt32_eq_of_fits d hd0 hdf]

theorem toInt32_if_verbatim (v d : Int) (h : 0 < v) (hv : v < 2147483648) :
    toInt32 (if v > 0 then v else d) = v := by
  rw [if_pos (by omega), toInt32_eq_of_fits v (by omega) hv]

theorem memField_pos (v d : Int) (hv : v < 2147483648) (hd : 0 < d) :
    0 < (if v > 0 then wrap64 (v * 1024) else d) := by
  by_cases h : v > 0
  · rw [if_pos h, wrap64_eq_of_fits (v * 1024) (by omega) (by omega)]
    omega
  · rw [if_neg h]
    exact hd

theorem memField_default (v d : Int) (h : v ≤ 0) :
    (if v > 0 then wrap64 (v * 1024) else d) = d := if_neg (by omega)

theorem memField_scale (v d : Int) (h : 0 < v) (hv : v < 2147483648) :
    (if v > 0 then wrap64 (v * 1024) else d) = 1024 * v := by
  rw [if_pos h, wrap64_eq_of_fits _ (by omega) (by omega)]
  ring

/-- Claim C5 (amended): for every configuration content whose parsed values
each fit in a 32-bit int, the loader returns a Limits record with all five
fields positive, each field independently falling back to its default
(1000 ms, 64 MiB, 64 000 000 bytes, 30 000 ms, 8 MiB) when missing,
unparsable or non-positive, with memory_limit and stack_limit interpreted as
kibibytes and scaled by 1024 while the other three are used verbatim.  (The
fit hypotheses are needed because the C++ code narrows the parsed long long
into int fields, which can make an oversized value wrap to a non-positive
int.) -/
theorem loadLimits_positive_fields (content : Option String)
    (ht : parsedLimit content "time_limit" < 2147483648)
    (hm : parsedLimit content "memory_limit" < 2147483648)
    (ho : parsedLimit content "output_limit" < 2147483648)
    (hc : parsedLimit content "compile_timeout" < 2147483648)
    (hs : parsedLimit content "stack_limit" < 2147483648) :
    (0 < (loadLimits content).time_limit
      ∧ 0 < (loadLimits content).memory_limit
      ∧ 0 < (loadLimits content).output_limit
      ∧ 0 < (loadLimits content).compile_timeout
      ∧ 0 < (loadLimits content).stack_limit)
    ∧ (parsedLimit content "time_limit" ≤ 0 → (loadLimits content).time_limit = 1000)
    ∧ (parsedLimit content "memory_limit" ≤ 0 →
        (loadLimits content).memory_limit = 67108864)
    ∧ (parsedLimit content "output_limit" ≤ 0 →
        (loadLimits content).output_limit = 64000000)
    ∧ (parsedLimit content "compile_timeout" ≤ 0 →
        (loadLimits content).compile_timeout = 30000)
    ∧ (parsedLimit content "stack_limit" ≤ 0 → (loadLimits content).stack_limit = 8388608)
    ∧ (0 < parsedLimit content "time_limit" →
        (loadLimits content).time_limit = parsedLimit content "time_limit")
    ∧ (0 < parsedLimit content "memory_limit" →
        (loadLimits content).memory_limit = 1024 * parsedLimit content "memory_limit")
    ∧ (0 < parsedLimit content "output_limit" →
        (loadLimits content).output_limit = parsedLimit content "output_limit")
    ∧ (0 < parsedLimit content "compile_timeout" →
        (loadLimits content).compile_timeout = parsedLimit content "compile_timeout")
    ∧ (0 < parsedLimit content "stack_limit" →
        (loadLimits content).stack_limit = 1024 * parsedLimit content "stack_limit") := by
  cases content with
  | none => simp [loadLimits, parsedLimit]
  | some json =>
    simp only [parsedLimit] at ht hm ho hc hs ⊢
    rw [loadLimits]
    dsimp only
    refine ⟨⟨?_, ?_, ?_, ?_, ?_⟩, ?_, ?_, ?_, ?_, ?_, ?_, ?_, ?_, ?_, ?_⟩
    · exact toInt32_if_pos _ 1000 ht (by omega) (by omega)
    · exact memField_pos _ 67108864 hm (by omega)
    · exact toInt32_if_pos _ 64000000 ho (by omega) (by omega)
    · exact toInt32_if_pos _ 30000 hc (by omega) (by omega)
    · exact memField_pos _ 8388608 hs (by omega)
    · intro hle
      exact toInt32_if_default _ 1000 hle (by omega) (by omega)
    · intro hle
      exact memField_default _ 67108864 hle
    · intro hle
      exact toInt32_if_default _ 64000000 hle (by omega) (by omega)
    · intro hle
      exact toInt32_if_default _ 30000 hle (by omega) (by omega)
    · intro hle
      exact memField_default _ 8388608 hle
    · intro hpos
      exact toInt32_if_verbatim _ 1000 hpos ht
    · intro hpos
      exact memField_scale _ 67108864 hpos hm
    · intro hpos
      exact toInt32_if_verbatim _ 64000000 hpos ho
    · intro hpos
      exact toInt32_if_verbatim _ 30000 hpos hc
    · intro hpos
      exact memField_scale _ 8388608 hpos hs

/-- Claim C5 counterexample: a configuration whose time_limit is 2^32
parses to a positive long long, but the narrowing store into the int field
wraps it to 0, so the loaded record is not positive in every field. -/
theorem loadLimits_overflow_cex :
    parseJsonNumber "\x7b\"time_limit\": 4294967296\x7d" "time_limit" = 4294967296
    ∧ (loadLimits (some "\x7b\"time_limit\": 4294967296\x7d")).time_limit = 0
    ∧ ¬ (0 < (loadLimits (some "\x7b\"time_limit\": 4294967296\x7d")).time_limit) := by
  decide

/-- Claim C5 witness: a concrete well-formed configuration loads into a
record whose five fields are positive. -/
theorem loadLimits_positive_fields_inst :
    0 < (loadLimits (some "\x7b\"time_limit\": 2000, \"memory_limit\": 2048\x7d")).time_limit
    ∧ 0 < (loadLimits (some "\x7b\"time_limit\": 2000, \"memory_limit\": 2048\x7d")).memory_limit
    ∧ 0 < (loadLimits (some "\x7b\"time_limit\": 2000, \"memory_limit\": 2048\x7d")).output_limit
    ∧ 0 < (loadLimits
        (some "\x7b\"time_limit\": 2000, \"memory_limit\": 2048\x7d")).compile_timeout
    ∧ 0 < (loadLimits (some "\x7b\"time_limit\": 2000, \"memory_limit\": 2048\x7d")).stack_limit := by
  have h := loadLimits_positive_fields (some "\x7b\"time_limit\": 2000, \"memory_limit\": 2048\x7d")
    (by decide) (by decide) (by decide) (by decide) (by decide)
  exact h.1

/-- Claim C7 (amended): resultToJson deterministically emits one textual
object with the fields in the order status, time_used, mem_used, exit_code,
error_message, stdout, output_len, allocated_cpu; error_message and stdout
are escaped for double-quote, backslash, newline, carriage return and tab,
while status and allocated_cpu are emitted verbatim; decoding the output by
parsing that skeleton and inverting the escapes recovers every field
byte-exactly, provided status and allocated_cpu contain no double-quote
byte. -/
theorem resultToJson_roundtrip (r : JudgeResult)
    (hst : '"' ∉ r.status.data) (hac : '"' ∉ r.allocated_cpu.data) :
    decodeResult (resultToJson r) = some r := by
  show decodeResultL (resultToJsonL r) = some r
  have hs1 := fun s => readRaw_append r.status.data s hst
  have hs2 := fun s => readRaw_append r.allocated_cpu.data s hac
  rw [resultToJsonL, decodeResultL]
  simp only [List.singleton_append, expectL_append, expectL_self, hs1, hs2,
    readEsc_escapeL, readInt_lblMem, readInt_lblExit, readInt_lblErr, readInt_lblCpu]
  rfl

/-- Claim C7 counterexample: a result whose status contains a double-quote
is emitted without escaping that byte, and the decode no longer recovers the
record, refuting the claim that every string value is escaped and
invertible. -/
theorem resultToJson_status_unescaped :
    decodeResult (resultToJson rBadC7) ≠ some rBadC7 := by
  decide

/-- Claim C7 witness: the round-trip applied to a concrete result exercising
every escape class. -/
theorem resultToJson_roundtrip_inst :
    decodeResult (resultToJson rGoodC7) = some rGoodC7 :=
  resultToJson_roundtrip rGoodC7 (by decide) (by decide)

theorem natRepr_zero : natRepr 0 = "0" := by
  rw [natRepr, natDigits]
  decide

/-- Claim C8 (amended): the CPU selector returns the decimal string of
(hash XOR timestamp) mod N, an index in [0, N), where N is the number of
lines beginning with "processor" in /proc/cpuinfo and falls back to 1 both
when the file is unreadable and when it exists but lists no processor line
(the spec claimed a fallback of 0 in the latter case, which would leave no
valid index). -/
theorem selectCpu_index_formula (hashVal ts : Nat) (cpuinfo : Option (List String)) :
    CgroupManager.selectCpuForBinding hashVal ts cpuinfo
      = natRepr ((hashVal ^^^ ts) % CgroupManager.codeN cpuinfo)
    ∧ (hashVal ^^^ ts) % CgroupManager.codeN cpuinfo < CgroupManager.codeN cpuinfo
    ∧ CgroupManager.codeN cpuinfo
        = (if 0 < CgroupManager.specClaimN cpuinfo then CgroupManager.specClaimN cpuinfo
           else 1) := by
  cases cpuinfo with
  | none =>
    refine ⟨?_, ?_, ?_⟩
    · rw [CgroupManager.selectCpuForBinding, CgroupManager.getCpuCount,
        CgroupManager.codeN, Nat.mod_one, natRepr_zero]
      norm_num
    · rw [CgroupManager.codeN]
      simp [Nat.mod_one]
    · rw [CgroupManager.codeN, CgroupManager.specClaimN]
      decide
  | some lines =>
    rw [CgroupManager.selectCpuForBinding, CgroupManager.getCpuCount,
      CgroupManager.codeN, CgroupManager.specClaimN]
    by_cases hc : 0 < (lines.filter (fun l => l.startsWith "processor")).length
    · simp only [if_pos hc]
      have hne :
          ¬ (((lines.filter (fun l => l.startsWith "processor")).length : Int) ≤ 0) := by
        omega
      rw [if_neg hne, Int.toNat_natCast]
      exact ⟨rfl, Nat.mod_lt _ hc, trivial⟩
    · simp only [if_neg hc]
      have hne : ¬ ((1 : Int) ≤ 0) := by norm_num
      rw [if_neg hne]
      refine ⟨?_, ?_, trivial⟩
      · norm_num
      · simp [Nat.mod_one]

/-- Claim C8 counterexample: on a readable /proc/cpuinfo with no processor
line, the claimed N is 0 — leaving no index in the empty range [0, 0) — yet
the selector still returns the index string "0", because the code clamps
the count up to 1. -/
theorem selectCpu_empty_cpuinfo_cex :
    CgroupManager.specClaimN (some ["hello"]) = 0
    ∧ CgroupManager.selectCpuForBinding 5 7 (some ["hello"]) = natRepr 0
    ∧ ¬ (0 < CgroupManager.specClaimN (some ["hello"])) := by
  decide

/-- Claim C10 (confirmed): every CgroupManager operation is guarded by the
created flag — before create() has succeeded, setMemoryLimit, setCpuLimit
and addProcess return false, getMemoryPeak and getCurrentMemory return the
sentinel -1, and getAllocatedCpu returns the empty string; cleanup removes
the directory only when created is set and then clears the flag, so a
repeated call performs no action. -/
theorem cgroup_created_guards (lim pid v : Int) (o w g : Bool) (hv ts : Nat)
    (info : Option (List String)) (co cg mo mg : Bool) (content : String) (c : Bool) :
    CgroupManager.setMemoryLimit false lim o w = false
    ∧ CgroupManager.setCpuLimit false hv ts info co cg mo mg = false
    ∧ CgroupManager.addProcess false pid o w = false
    ∧ CgroupManager.getMemoryPeak false o g v = -1
    ∧ CgroupManager.getCurrentMemory false o g v = -1
    ∧ CgroupManager.getAllocatedCpu false o content = ""
    ∧ (CgroupManager.cleanup c).1 = (if c then [CgAction.rmdir] else [])
    ∧ (CgroupManager.cleanup c).2 = false
    ∧ CgroupManager.cleanup (CgroupManager.cleanup c).2 = ([], false) := by
  refine ⟨rfl, rfl, rfl, rfl, rfl, rfl, ?_, ?_, ?_⟩ <;>
    cases c <;> simp [CgroupManager.cleanup]
